import Mathlib

/-!
Shallow embedding of the figma-query launcher
(`src/python/figma_query/cli.py`) and proofs about it.

The launcher identifies the host platform from the raw strings reported
by the host (`platform.system()`, `platform.machine()`), derives a binary
name, searches an ordered list of candidate paths for the first existing
one, and delegates execution to it, forwarding arguments, environment
and exit status.  Ambient host state (raw strings, filesystem existence,
chmod success, child behaviour) is passed as explicit parameters, as the
spec's design notes prescribe for a testable reimplementation.
-/

/-- Model of Python `str.lower` (ASCII case mapping, as in `Char.toLower`),
written structurally over the character list so it evaluates by `decide`. -/
def lowerStr (s : String) : String := String.mk (s.data.map Char.toLower)

/-- Suffix test on strings (Python `str.endswith`), via the character
lists so it evaluates by `decide`. -/
def strEndsWith (s suff : String) : Bool := List.isSuffixOf suff.data s.data

/-- Error taxonomy of the launcher.  The Python code raises
`RuntimeError` / `FileNotFoundError`; the three kinds are distinguished
here by constructor, each carrying the exact message string the code
builds. -/
inductive Err where
  | unsupportedPlatform (msg : String)
  | unsupportedArchitecture (msg : String)
  | binaryNotFound (msg : String)
deriving DecidableEq, Repr

instance {ε α : Type} [DecidableEq ε] [DecidableEq α] : DecidableEq (Except ε α) := fun
  | .error e, .error f =>
    if h : e = f then .isTrue (by rw [h]) else .isFalse (by intro hc; cases hc; exact h rfl)
  | .error _, .ok _ => .isFalse (by intro hc; cases hc)
  | .ok _, .error _ => .isFalse (by intro hc; cases hc)
  | .ok a, .ok b =>
    if h : a = b then .isTrue (by rw [h]) else .isFalse (by intro hc; cases hc; exact h rfl)

/-- Message carried by an error (Python `str(e)`). -/
def Err.message : Err → String
  | .unsupportedPlatform m => m
  | .unsupportedArchitecture m => m
  | .binaryNotFound m => m

/-- Normalized operating system, per the spec's HostPlatform data model. -/
inductive OS where
  | darwin
  | linux
  | windows
deriving DecidableEq, Repr

/-- Normalized architecture, per the spec's HostPlatform data model. -/
inductive Arch where
  | amd64
  | arm64
deriving DecidableEq, Repr

/-- Normalized (os, arch) pair. -/
structure HostPlatform where
  os : OS
  arch : Arch
deriving DecidableEq, Repr

/-- String for a normalized OS (the `os_name` variable of the code). -/
def osStr : OS → String
  | .darwin => "darwin"
  | .linux => "linux"
  | .windows => "windows"

/-- String for a normalized architecture (the `arch` variable of the code). -/
def archStr : Arch → String
  | .amd64 => "amd64"
  | .arm64 => "arm64"

/-- OS-name mapping of `get_platform_binary_name` (cli.py lines 16-23):
the already-lowercased system string against the three known values. -/
def get_os_name (system : String) : Except Err String :=
  if system = "darwin" then .ok "darwin"
  else if system = "linux" then .ok "linux"
  else if system = "windows" then .ok "windows"
  else .error (.unsupportedPlatform ("Unsupported operating system: " ++ system))

/-- Architecture mapping of `get_platform_binary_name` (cli.py lines 25-31):
the already-lowercased machine string against the four known values. -/
def get_arch (machine : String) : Except Err String :=
  if machine = "x86_64" ∨ machine = "amd64" then .ok "amd64"
  else if machine = "arm64" ∨ machine = "aarch64" then .ok "arm64"
  else .error (.unsupportedArchitecture ("Unsupported architecture: " ++ machine))

/-- Embedding of `get_platform_binary_name` (cli.py lines 10-37).  The raw
host strings are explicit inputs; the code lowercases both, maps the OS
then the architecture, and builds `figma-query-os-arch`, appending
`.exe` when the lowercased system string is `windows`. -/
def get_platform_binary_name (systemRaw machineRaw : String) : Except Err String :=
  let system := lowerStr systemRaw
  let machine := lowerStr machineRaw
  match get_os_name system with
  | .error e => .error e
  | .ok os_name =>
    match get_arch machine with
    | .error e => .error e
    | .ok arch =>
      let binary_name := "figma-query-" ++ os_name ++ "-" ++ arch
      if system = "windows" then .ok (binary_name ++ ".exe") else .ok binary_name

/-- Lookup of a lowercased system string in the OS table of cli.py
lines 16-23, as a normalized enum value. -/
def osOf (system : String) : Option OS :=
  if system = "darwin" then some .darwin
  else if system = "linux" then some .linux
  else if system = "windows" then some .windows
  else none

/-- Lookup of a lowercased machine string in the architecture table of
cli.py lines 25-31, as a normalized enum value. -/
def archOf (machine : String) : Option Arch :=
  if machine = "x86_64" ∨ machine = "amd64" then some .amd64
  else if machine = "arm64" ∨ machine = "aarch64" then some .arm64
  else none

/-- Platform identification portion of `get_platform_binary_name`
(cli.py lines 12-31), returning the normalized pair instead of the
final name: lowercase both raw strings, map the OS first, then the
architecture. -/
def identify (systemRaw machineRaw : String) : Except Err HostPlatform :=
  let system := lowerStr systemRaw
  let machine := lowerStr machineRaw
  match osOf system with
  | none => .error (.unsupportedPlatform ("Unsupported operating system: " ++ system))
  | some os =>
    match archOf machine with
    | none => .error (.unsupportedArchitecture ("Unsupported architecture: " ++ machine))
    | some arch => .ok ⟨os, arch⟩

/-- Name construction portion of `get_platform_binary_name` (cli.py
lines 33-37) as a function of the normalized pair.  The code's suffix
test `system == "windows"` is equivalent to `os_name == "windows"`,
i.e. to the normalized OS being windows; `get_platform_binary_name_eq`
below proves this reading faithful to the monolithic function. -/
def binaryNameOf (p : HostPlatform) : String :=
  let binary_name := "figma-query-" ++ osStr p.os ++ "-" ++ archStr p.arch
  if p.os = OS.windows then binary_name ++ ".exe" else binary_name

theorem osOf_get_os_name (system : String) :
    (osOf system = none ∧
      get_os_name system =
        .error (.unsupportedPlatform ("Unsupported operating system: " ++ system))) ∨
    (∃ os, osOf system = some os ∧ get_os_name system = .ok (osStr os)) := by
  unfold osOf get_os_name
  split_ifs with h1 h2 h3
  · exact Or.inr ⟨.darwin, rfl, rfl⟩
  · exact Or.inr ⟨.linux, rfl, rfl⟩
  · exact Or.inr ⟨.windows, rfl, rfl⟩
  · exact Or.inl ⟨rfl, rfl⟩

theorem archOf_get_arch (machine : String) :
    (archOf machine = none ∧
      get_arch machine =
        .error (.unsupportedArchitecture ("Unsupported architecture: " ++ machine))) ∨
    (∃ a, archOf machine = some a ∧ get_arch machine = .ok (archStr a)) := by
  unfold archOf get_arch
  split_ifs with h1 h2
  · exact Or.inr ⟨.amd64, rfl, rfl⟩
  · exact Or.inr ⟨.arm64, rfl, rfl⟩
  · exact Or.inl ⟨rfl, rfl⟩

theorem osOf_windows (system : String) (os : OS) (h : osOf system = some os) :
    system = "windows" ↔ os = OS.windows := by
  unfold osOf at h
  split_ifs at h with h1 h2 h3
  · cases h; subst h1; decide
  · cases h; subst h2; decide
  · cases h; subst h3; simp

/-- The monolithic source function factors through identification and
pure name construction. -/
theorem get_platform_binary_name_eq (systemRaw machineRaw : String) :
    get_platform_binary_name systemRaw machineRaw =
      (identify systemRaw machineRaw).map binaryNameOf := by
  rcases osOf_get_os_name (lowerStr systemRaw) with ⟨h1, h2⟩ | ⟨os, h1, h2⟩
  · simp only [get_platform_binary_name, identify, h1, h2, Except.map]
  · rcases archOf_get_arch (lowerStr machineRaw) with ⟨g1, g2⟩ | ⟨a, g1, g2⟩
    · simp only [get_platform_binary_name, identify, h1, h2, g1, g2, Except.map]
    · have hw := osOf_windows (lowerStr systemRaw) os h1
      by_cases hsys : (lowerStr systemRaw) = "windows"
      · have hos : os = OS.windows := hw.mp hsys
        simp only [get_platform_binary_name, identify, h1, h2, g1, g2,
          Except.map, binaryNameOf, hsys, hos]
        cases a <;> rfl
      · have hos : os ≠ OS.windows := fun hc => hsys (hw.mpr hc)
        simp only [get_platform_binary_name, identify, h1, h2, g1, g2,
          Except.map, binaryNameOf, if_neg hsys, if_neg hos]

/-- Filesystem paths, modelled as their component lists (pathlib `Path`:
the `/` operator appends a component, `.parent` drops the last one). -/
abbrev FsPath : Type := List String

/-- Model of pathlib `Path.parent`. -/
def FsPath.parent (p : FsPath) : FsPath := List.dropLast p

/-- Model of `str(path)`: components joined by the separator. -/
def pathStr (p : FsPath) : String := String.intercalate "/" p

/-- The ordered candidate list built in `get_binary_path` (cli.py lines
54-58): package-local `bin`, parent-relative `bin`, and the
`share/figma_query/bin` directory under `sys.prefix`. -/
def candidates (package_dir prefixDir : FsPath) (binary_name : String) : List FsPath :=
  [package_dir ++ ["bin", binary_name],
   FsPath.parent package_dir ++ ["bin", binary_name],
   prefixDir ++ ["share", "figma_query", "bin", binary_name]]

/-- Embedding of `get_binary_path` (cli.py lines 40-65).  The filesystem
is an explicit existence oracle `fs`; `package_dir` stands for
`Path(__file__).parent` and `prefixDir` for `Path(sys.prefix)`.  The code
first probes the package-local `bin` path on its own, then loops over the
three candidates returning the first existing one, and otherwise raises
`FileNotFoundError` whose message interpolates the raw (un-lowercased)
system and machine strings and the computed binary name. -/
def get_binary_path (fs : FsPath → Bool) (package_dir prefixDir : FsPath)
    (systemRaw machineRaw : String) : Except Err FsPath :=
  match get_platform_binary_name systemRaw machineRaw with
  | .error e => .error e
  | .ok binary_name =>
    let bin_dir : FsPath := package_dir ++ ["bin"]
    let binary_path : FsPath := bin_dir ++ [binary_name]
    if fs binary_path then .ok binary_path
    else
      match (candidates package_dir prefixDir binary_name).find? fs with
      | some search_path => .ok search_path
      | none =>
        .error (.binaryNotFound
          ("figma-query binary not found for " ++ systemRaw ++ "/" ++ machineRaw ++
            ". Expected: " ++ binary_name))

/-- Paths probed by the `for` loop of `get_binary_path`, in order: each
candidate is consulted until (and including) the first existing one. -/
def probeList (fs : FsPath → Bool) : List FsPath → List FsPath
  | [] => []
  | p :: ps => if fs p then [p] else p :: probeList fs ps

/-- Existence checks `get_binary_path` performs, in order: none when
identification fails, otherwise the initial package-local probe followed,
when it does not exist, by the loop's probes. -/
def get_binary_path_probes (fs : FsPath → Bool) (package_dir prefixDir : FsPath)
    (systemRaw machineRaw : String) : List FsPath :=
  match get_platform_binary_name systemRaw machineRaw with
  | .error _ => []
  | .ok binary_name =>
    let binary_path : FsPath := package_dir ++ ["bin"] ++ [binary_name]
    if fs binary_path then [binary_path]
    else binary_path :: probeList fs (candidates package_dir prefixDir binary_name)

/-- Modelled from the spec's locate contract: a single first-existing-match
search over the three candidate paths in order, with the same error
otherwise.  Compared against `get_binary_path` for the refinement claim. -/
def locateSpec (fs : FsPath → Bool) (package_dir prefixDir : FsPath)
    (systemRaw machineRaw : String) : Except Err FsPath :=
  match get_platform_binary_name systemRaw machineRaw with
  | .error e => .error e
  | .ok binary_name =>
    match (candidates package_dir prefixDir binary_name).find? fs with
    | some search_path => .ok search_path
    | none =>
      .error (.binaryNotFound
        ("figma-query binary not found for " ++ systemRaw ++ "/" ++ machineRaw ++
          ". Expected: " ++ binary_name))

/-- Result of the child process, distinguishing a normal exit from death
by signal, as the spec's design notes prescribe. -/
inductive ChildResult where
  | normalExit (code : Int)
  | signaled (sig : Nat)
deriving DecidableEq, Repr

/-- Python `subprocess` `returncode` semantics on POSIX: the exit code for
a normal exit, the negated signal number for a signal death. -/
def returncode : ChildResult → Int
  | .normalExit c => c
  | .signaled s => -(s : Int)

/-- Argument vector and environment a child process is spawned with. -/
structure Invocation (Env : Type) where
  argv : List String
  env : Env
deriving DecidableEq, Repr

/-- Observable outcome of one launcher run: the launcher's exit status,
the spawned child invocation (if any), the path passed to `os.chmod`
(if the call was made), the diagnostic lines printed to stderr, and
whether the run died of an uncaught exception. -/
structure MainOutcome (Env : Type) where
  exitCode : Int
  spawned : Option (Invocation Env)
  chmodCalled : Option FsPath
  stderrLines : List String
  uncaughtError : Bool
deriving DecidableEq, Repr

/-- Embedding of `main` (cli.py lines 68-86) plus the `sys.exit(main())`
entry point.  Explicit inputs: the raw platform strings, the filesystem
oracle, the two anchor directories, the full `sys.argv` (program name
first), the inherited environment, a `chmodOk` oracle telling whether
`os.chmod(path, 0o755)` succeeds, and the child process behaviour as a
function of its invocation.  A location/identification error prints one
`Error: ...` line and returns 1; the chmod call is made exactly when the
raw system string differs from `"Windows"`, and since it is not wrapped
in any try/except its failure propagates as an uncaught exception
(interpreter exit status 1, nothing spawned); otherwise the child runs
with `[str(binary_path)] + sys.argv[1:]` and the unmodified environment,
and its returncode becomes the launcher's exit status. -/
def mainRun {Env : Type} (systemRaw machineRaw : String) (fs : FsPath → Bool)
    (package_dir prefixDir : FsPath) (argv : List String) (env : Env)
    (chmodOk : FsPath → Bool) (child : Invocation Env → ChildResult) :
    MainOutcome Env :=
  match get_binary_path fs package_dir prefixDir systemRaw machineRaw with
  | .error e =>
    { exitCode := 1, spawned := none, chmodCalled := none,
      stderrLines := ["Error: " ++ e.message], uncaughtError := false }
  | .ok binary_path =>
    let chmodCalled := if systemRaw ≠ "Windows" then some binary_path else none
    if systemRaw ≠ "Windows" ∧ ¬ chmodOk binary_path then
      { exitCode := 1, spawned := none, chmodCalled := chmodCalled,
        stderrLines := [], uncaughtError := true }
    else
      let inv : Invocation Env := ⟨pathStr binary_path :: List.drop 1 argv, env⟩
      { exitCode := returncode (child inv), spawned := some inv,
        chmodCalled := chmodCalled, stderrLines := [], uncaughtError := false }

theorem package_bin_path_eq (package_dir : FsPath) (binary_name : String) :
    (package_dir ++ ["bin"]) ++ [binary_name] = package_dir ++ ["bin", binary_name] := by
  simp [List.append_assoc]

/-- On successful name computation, `get_binary_path` behaves as the
first-existing-match search over the candidate list. -/
theorem get_binary_path_find (fs : FsPath → Bool) (package_dir prefixDir : FsPath)
    (systemRaw machineRaw binary_name : String)
    (hname : get_platform_binary_name systemRaw machineRaw = .ok binary_name) :
    get_binary_path fs package_dir prefixDir systemRaw machineRaw =
      match (candidates package_dir prefixDir binary_name).find? fs with
      | some search_path => .ok search_path
      | none =>
        .error (.binaryNotFound
          ("figma-query binary not found for " ++ systemRaw ++ "/" ++ machineRaw ++
            ". Expected: " ++ binary_name)) := by
  unfold get_binary_path
  rw [hname]
  simp only [package_bin_path_eq]
  by_cases hfs : fs (package_dir ++ ["bin", binary_name])
  · simp [candidates, List.find?, hfs]
  · simp only [hfs, if_false, Bool.false_eq_true]

/-- C10: the implemented binary lookup — which tests the package-local
candidate once on its own and then again as the first element of the
three-element candidate list — is extensionally equal, for every
filesystem state, raw platform strings and anchor directories, to the
single first-existing-match search `locateSpec` over the three candidate
paths in order (package-local bin, parent-relative bin,
installation-prefix share bin): same returned path or same failure. -/
theorem c10_lookup_refines_first_match (fs : FsPath → Bool)
    (package_dir prefixDir : FsPath) (systemRaw machineRaw : String) :
    get_binary_path fs package_dir prefixDir systemRaw machineRaw =
      locateSpec fs package_dir prefixDir systemRaw machineRaw := by
  cases hname : get_platform_binary_name systemRaw machineRaw with
  | error e =>
    unfold get_binary_path locateSpec
    rw [hname]
  | ok binary_name =>
    rw [get_binary_path_find fs package_dir prefixDir systemRaw machineRaw binary_name hname]
    unfold locateSpec
    rw [hname]

/-- C2: binary location searches a fixed ordered list of exactly three
candidate locations (package-local bin, parent-relative bin, shared-data
bin under the installation prefix) and returns the first candidate that
exists; when only the third candidate exists, that third path is
returned; and no candidate positioned after the first existing match is
ever consulted (probed) by the code. -/
theorem c2_locate_order (fs : FsPath → Bool) (package_dir prefixDir : FsPath)
    (systemRaw machineRaw binary_name : String)
    (hname : get_platform_binary_name systemRaw machineRaw = .ok binary_name) :
    (candidates package_dir prefixDir binary_name).length = 3 ∧
    (∀ p, get_binary_path fs package_dir prefixDir systemRaw machineRaw = .ok p ↔
      (candidates package_dir prefixDir binary_name).find? fs = some p) ∧
    (fs (package_dir ++ ["bin", binary_name]) = false →
      fs (FsPath.parent package_dir ++ ["bin", binary_name]) = false →
      fs (prefixDir ++ ["share", "figma_query", "bin", binary_name]) = true →
      get_binary_path fs package_dir prefixDir systemRaw machineRaw =
        .ok (prefixDir ++ ["share", "figma_query", "bin", binary_name])) ∧
    ((candidates package_dir prefixDir binary_name).Nodup →
      ∀ i j : Nat, i < j → j < 3 →
      fs ((candidates package_dir prefixDir binary_name).getD i []) = true →
      (candidates package_dir prefixDir binary_name).getD j [] ∉
        get_binary_path_probes fs package_dir prefixDir systemRaw machineRaw) := by
  have hfind := get_binary_path_find fs package_dir prefixDir systemRaw machineRaw
    binary_name hname
  have hprobes : get_binary_path_probes fs package_dir prefixDir systemRaw machineRaw =
      if fs (package_dir ++ ["bin", binary_name]) then [package_dir ++ ["bin", binary_name]]
      else (package_dir ++ ["bin", binary_name]) ::
        probeList fs (candidates package_dir prefixDir binary_name) := by
    unfold get_binary_path_probes
    rw [hname]
    simp only [package_bin_path_eq]
  refine ⟨rfl, ?_, ?_, ?_⟩
  · intro p
    rw [hfind]
    cases hf : (candidates package_dir prefixDir binary_name).find? fs with
    | some q => simp
    | none => simp
  · intro h1 h2 h3
    rw [hfind]
    simp [candidates, List.find?, h1, h2, h3]
  · intro hnd i j hij hj hi
    simp only [candidates, List.nodup_cons, List.mem_cons, List.mem_singleton,
      List.not_mem_nil, or_false, List.nodup_nil, and_true, not_or] at hnd
    obtain ⟨⟨h12, h13⟩, h23, -⟩ := hnd
    rw [hprobes]
    interval_cases j <;> interval_cases i
    · -- probing stops at the existing first candidate, second never seen
      simp only [candidates, List.getD_cons_zero, List.getD_cons_succ] at hi ⊢
      simp only [hi, if_true, List.mem_singleton]
      exact fun h => h12 h.symm
    · -- probing stops at the existing first candidate, third never seen
      simp only [candidates, List.getD_cons_zero, List.getD_cons_succ] at hi ⊢
      simp only [hi, if_true, List.mem_singleton]
      exact fun h => h13 h.symm
    · -- second candidate exists: the loop stops there, third never seen
      simp only [candidates, List.getD_cons_zero, List.getD_cons_succ] at hi ⊢
      by_cases hc1 : fs (package_dir ++ ["bin", binary_name]) = true
      · simp only [hc1, if_true, List.mem_singleton]
        exact fun h => h13 h.symm
      · have h31 : prefixDir ++ ["share", "figma_query", "bin", binary_name] ≠
            package_dir ++ ["bin", binary_name] := Ne.symm h13
        have h32 : prefixDir ++ ["share", "figma_query", "bin", binary_name] ≠
            FsPath.parent package_dir ++ ["bin", binary_name] := Ne.symm h23
        simp only [candidates, probeList, hc1, hi, if_true, if_false]
        simp [h31, h32]

/-- C6: when no candidate directory contains the computed binary name,
locate fails with BinaryNotFound, and the error's message contains the
exact binary name that was sought together with the raw (un-normalized)
system and machine strings. -/
theorem c6_not_found_diagnostics (fs : FsPath → Bool) (package_dir prefixDir : FsPath)
    (systemRaw machineRaw binary_name : String)
    (hname : get_platform_binary_name systemRaw machineRaw = .ok binary_name)
    (h1 : fs (package_dir ++ ["bin", binary_name]) = false)
    (h2 : fs (FsPath.parent package_dir ++ ["bin", binary_name]) = false)
    (h3 : fs (prefixDir ++ ["share", "figma_query", "bin", binary_name]) = false) :
    ∃ msg, get_binary_path fs package_dir prefixDir systemRaw machineRaw =
        .error (.binaryNotFound msg) ∧
      (∃ a b, msg = a ++ binary_name ++ b) ∧
      (∃ a b, msg = a ++ systemRaw ++ b) ∧
      (∃ a b, msg = a ++ machineRaw ++ b) := by
  refine ⟨"figma-query binary not found for " ++ systemRaw ++ "/" ++ machineRaw ++
    ". Expected: " ++ binary_name, ?_, ?_, ?_, ?_⟩
  · rw [get_binary_path_find fs package_dir prefixDir systemRaw machineRaw binary_name hname]
    simp [candidates, List.find?, h1, h2, h3]
  · exact ⟨"figma-query binary not found for " ++ systemRaw ++ "/" ++ machineRaw ++
      ". Expected: ", "", by rw [String.append_empty]⟩
  · exact ⟨"figma-query binary not found for ",
      "/" ++ machineRaw ++ ". Expected: " ++ binary_name, by
        simp [String.append_assoc]⟩
  · exact ⟨"figma-query binary not found for " ++ systemRaw ++ "/",
      ". Expected: " ++ binary_name, by simp [String.append_assoc]⟩

theorem osOf_none_iff (s : String) :
    osOf s = none ↔ s ∉ (["darwin", "linux", "windows"] : List String) := by
  unfold osOf
  split_ifs with h1 h2 h3 <;> simp_all

theorem archOf_none_iff (m : String) :
    archOf m = none ↔ m ∉ (["x86_64", "amd64", "arm64", "aarch64"] : List String) := by
  unfold archOf
  constructor
  · intro h hm
    split_ifs at h
    simp_all
  · intro hm
    split_ifs with h1 h2
    · exact absurd (by simp_all) hm
    · exact absurd (by simp_all) hm
    · rfl

theorem osOf_spec (s : String) (os : OS) (h : osOf s = some os) :
    (s = "darwin" → os = OS.darwin) ∧ (s = "linux" → os = OS.linux) ∧
      (s = "windows" → os = OS.windows) ∧
      s ∈ (["darwin", "linux", "windows"] : List String) := by
  unfold osOf at h
  split_ifs at h with h1 h2 h3 <;> cases h <;> refine ⟨?_, ?_, ?_, ?_⟩ <;> simp_all

theorem archOf_spec (m : String) (a : Arch) (h : archOf m = some a) :
    ((m = "x86_64" ∨ m = "amd64") → a = Arch.amd64) ∧
      ((m = "arm64" ∨ m = "aarch64") → a = Arch.arm64) ∧
      m ∈ (["x86_64", "amd64", "arm64", "aarch64"] : List String) := by
  unfold archOf at h
  split_ifs at h with h1 h2
  · cases h
    refine ⟨fun _ => rfl, fun h3 => ?_, ?_⟩
    · rcases h1 with h1 | h1 <;> rcases h3 with h3 | h3 <;> simp_all
    · rcases h1 with h1 | h1 <;> simp_all
  · cases h
    refine ⟨fun h3 => ?_, fun _ => rfl, ?_⟩
    · rcases h2 with h2 | h2 <;> rcases h3 with h3 | h3 <;> simp_all
    · rcases h2 with h2 | h2 <;> simp_all

/-- C1: for every pair of raw host strings, platform identification
succeeds exactly when the case-folded OS string is one of darwin, linux,
windows and the case-folded machine string is one of x86_64, amd64,
arm64, aarch64; on success it yields the normalized (os, arch) pair with
x86_64/amd64 mapping to amd64 and arm64/aarch64 mapping to arm64;
otherwise it fails with the unsupported-platform error for an unknown OS
string, or the unsupported-architecture error for an unknown machine
string; and the source's monolithic function is exactly identification
followed by pure name construction. -/
theorem c1_identification (systemRaw machineRaw : String) :
    ((∃ p, identify systemRaw machineRaw = .ok p) ↔
      (lowerStr systemRaw ∈ (["darwin", "linux", "windows"] : List String) ∧
       lowerStr machineRaw ∈ (["x86_64", "amd64", "arm64", "aarch64"] : List String))) ∧
    (∀ p, identify systemRaw machineRaw = .ok p →
      ((lowerStr systemRaw = "darwin" → p.os = OS.darwin) ∧
       (lowerStr systemRaw = "linux" → p.os = OS.linux) ∧
       (lowerStr systemRaw = "windows" → p.os = OS.windows) ∧
       ((lowerStr machineRaw = "x86_64" ∨ lowerStr machineRaw = "amd64") →
         p.arch = Arch.amd64) ∧
       ((lowerStr machineRaw = "arm64" ∨ lowerStr machineRaw = "aarch64") →
         p.arch = Arch.arm64))) ∧
    (lowerStr systemRaw ∉ (["darwin", "linux", "windows"] : List String) →
      ∃ msg, identify systemRaw machineRaw = .error (.unsupportedPlatform msg)) ∧
    ((lowerStr systemRaw ∈ (["darwin", "linux", "windows"] : List String) ∧
      lowerStr machineRaw ∉ (["x86_64", "amd64", "arm64", "aarch64"] : List String)) →
      ∃ msg, identify systemRaw machineRaw = .error (.unsupportedArchitecture msg)) ∧
    get_platform_binary_name systemRaw machineRaw =
      (identify systemRaw machineRaw).map binaryNameOf := by
  refine ⟨?_, ?_, ?_, ?_, get_platform_binary_name_eq systemRaw machineRaw⟩
  · constructor
    · rintro ⟨p, hp⟩
      cases hos : osOf (lowerStr systemRaw) with
      | none => simp [identify, hos] at hp
      | some os =>
        cases ha : archOf (lowerStr machineRaw) with
        | none => simp [identify, hos, ha] at hp
        | some a => exact ⟨(osOf_spec _ os hos).2.2.2, (archOf_spec _ a ha).2.2⟩
    · rintro ⟨hs, hm⟩
      cases hos : osOf (lowerStr systemRaw) with
      | none => exact absurd hs ((osOf_none_iff _).mp hos)
      | some os =>
        cases ha : archOf (lowerStr machineRaw) with
        | none => exact absurd hm ((archOf_none_iff _).mp ha)
        | some a => exact ⟨⟨os, a⟩, by simp [identify, hos, ha]⟩
  · intro p hp
    cases hos : osOf (lowerStr systemRaw) with
    | none => simp [identify, hos] at hp
    | some os =>
      cases ha : archOf (lowerStr machineRaw) with
      | none => simp [identify, hos, ha] at hp
      | some a =>
        simp only [identify, hos, ha, Except.ok.injEq] at hp
        subst hp
        obtain ⟨d1, d2, d3, -⟩ := osOf_spec _ os hos
        obtain ⟨e1, e2, -⟩ := archOf_spec _ a ha
        exact ⟨d1, d2, d3, e1, e2⟩
  · intro hs
    have hos : osOf (lowerStr systemRaw) = none := (osOf_none_iff _).mpr hs
    exact ⟨"Unsupported operating system: " ++ lowerStr systemRaw, by simp [identify, hos]⟩
  · rintro ⟨hs, hm⟩
    have ha : archOf (lowerStr machineRaw) = none := (archOf_none_iff _).mpr hm
    cases hos : osOf (lowerStr systemRaw) with
    | none => exact absurd hs ((osOf_none_iff _).mp hos)
    | some os =>
      exact ⟨"Unsupported architecture: " ++ lowerStr machineRaw, by simp [identify, hos, ha]⟩

/-- C9: when the raw OS string and the raw machine string are both
unsupported, identification fails with the unsupported-operating-system
error: the OS check takes precedence, and the machine string is never
examined (the result does not depend on it). -/
theorem c9_os_check_precedence (systemRaw machineRaw : String)
    (hos : lowerStr systemRaw ∉ (["darwin", "linux", "windows"] : List String))
    (hm : lowerStr machineRaw ∉ (["x86_64", "amd64", "arm64", "aarch64"] : List String)) :
    identify systemRaw machineRaw =
      .error (.unsupportedPlatform
        ("Unsupported operating system: " ++ lowerStr systemRaw)) ∧
    (∀ machineRaw2, identify systemRaw machineRaw = identify systemRaw machineRaw2) ∧
    get_platform_binary_name systemRaw machineRaw =
      .error (.unsupportedPlatform
        ("Unsupported operating system: " ++ lowerStr systemRaw)) := by
  have h : osOf (lowerStr systemRaw) = none := (osOf_none_iff _).mpr hos
  have hgos : get_os_name (lowerStr systemRaw) =
      .error (.unsupportedPlatform
        ("Unsupported operating system: " ++ lowerStr systemRaw)) := by
    rcases osOf_get_os_name (lowerStr systemRaw) with ⟨-, h2⟩ | ⟨os, h1, -⟩
    · exact h2
    · rw [h] at h1; cases h1
  refine ⟨by simp [identify, h], ?_, by simp [get_platform_binary_name, hgos]⟩
  intro machineRaw2
  simp [identify, h]

/-- C8: BinaryName is a pure, deterministic function of the normalized
HostPlatform only: it equals figma-query-os-arch with the .exe suffix
appended exactly when the OS is windows, so every windows name ends in
.exe and no darwin or linux name does; identical HostPlatform values
always yield identical BinaryName values, and any two raw string pairs
identifying to the same HostPlatform produce the same name through the
source function. -/
theorem c8_binary_name_pure (p : HostPlatform) :
    (binaryNameOf p =
      "figma-query-" ++ osStr p.os ++ "-" ++ archStr p.arch ++
        (if p.os = OS.windows then ".exe" else "")) ∧
    (strEndsWith (binaryNameOf p) ".exe" = true ↔ p.os = OS.windows) ∧
    (∀ q : HostPlatform, p = q → binaryNameOf p = binaryNameOf q) ∧
    (∀ s1 m1 s2 m2, identify s1 m1 = .ok p → identify s2 m2 = .ok p →
      get_platform_binary_name s1 m1 = get_platform_binary_name s2 m2) := by
  refine ⟨?_, ?_, fun q hq => by rw [hq], ?_⟩
  · obtain ⟨os, arch⟩ := p
    cases os <;> cases arch <;> decide
  · obtain ⟨os, arch⟩ := p
    cases os <;> cases arch <;> decide
  · intro s1 m1 s2 m2 h1 h2
    rw [get_platform_binary_name_eq s1 m1, get_platform_binary_name_eq s2 m2, h1, h2]

/-- When location succeeds and the chmod step does not fail (Windows
host or successful chmod), the launcher spawns the child and adopts its
returncode. -/
theorem mainRun_spawn {Env : Type} (systemRaw machineRaw : String) (fs : FsPath → Bool)
    (package_dir prefixDir : FsPath) (argv : List String) (env : Env)
    (chmodOk : FsPath → Bool) (child : Invocation Env → ChildResult)
    (binary_path : FsPath)
    (hok : get_binary_path fs package_dir prefixDir systemRaw machineRaw = .ok binary_path)
    (hch : systemRaw = "Windows" ∨ chmodOk binary_path = true) :
    mainRun systemRaw machineRaw fs package_dir prefixDir argv env chmodOk child =
      { exitCode := returncode (child ⟨pathStr binary_path :: List.drop 1 argv, env⟩),
        spawned := some ⟨pathStr binary_path :: List.drop 1 argv, env⟩,
        chmodCalled := if systemRaw ≠ "Windows" then some binary_path else none,
        stderrLines := [], uncaughtError := false } := by
  have hcond : ¬ (systemRaw ≠ "Windows" ∧ ¬ chmodOk binary_path = true) := by
    rcases hch with h | h
    · exact fun hc => hc.1 h
    · exact fun hc => hc.2 h
  simp only [mainRun, hok]
  rw [if_neg hcond]

/-- When location succeeds, the host is not Windows and chmod fails, the
uncaught exception aborts the launcher before any spawn. -/
theorem mainRun_chmod_crash {Env : Type} (systemRaw machineRaw : String) (fs : FsPath → Bool)
    (package_dir prefixDir : FsPath) (argv : List String) (env : Env)
    (chmodOk : FsPath → Bool) (child : Invocation Env → ChildResult)
    (binary_path : FsPath)
    (hok : get_binary_path fs package_dir prefixDir systemRaw machineRaw = .ok binary_path)
    (hw : systemRaw ≠ "Windows") (hch : chmodOk binary_path = false) :
    mainRun systemRaw machineRaw fs package_dir prefixDir argv env chmodOk child =
      { exitCode := 1, spawned := none, chmodCalled := some binary_path,
        stderrLines := [], uncaughtError := true } := by
  simp only [mainRun, hok]
  rw [if_pos ⟨hw, by simp [hch]⟩, if_pos hw]

/-- C3: for every child that terminates by exiting normally with code c,
the launcher's own exit status equals c verbatim; if the child was
terminated by a signal, the launcher's exit status is the non-zero
POSIX encoding (the negated signal number). -/
theorem c3_exit_status_propagation {Env : Type} (systemRaw machineRaw : String)
    (fs : FsPath → Bool) (package_dir prefixDir : FsPath) (argv : List String) (env : Env)
    (chmodOk : FsPath → Bool) (child : Invocation Env → ChildResult) (binary_path : FsPath)
    (hok : get_binary_path fs package_dir prefixDir systemRaw machineRaw = .ok binary_path)
    (hch : systemRaw = "Windows" ∨ chmodOk binary_path = true) :
    (∀ c, child ⟨pathStr binary_path :: List.drop 1 argv, env⟩ = .normalExit c →
      (mainRun systemRaw machineRaw fs package_dir prefixDir argv env chmodOk
        child).exitCode = c) ∧
    (∀ sig, 0 < sig → child ⟨pathStr binary_path :: List.drop 1 argv, env⟩ = .signaled sig →
      (mainRun systemRaw machineRaw fs package_dir prefixDir argv env chmodOk
        child).exitCode ≠ 0) := by
  rw [mainRun_spawn systemRaw machineRaw fs package_dir prefixDir argv env chmodOk child
    binary_path hok hch]
  constructor
  · intro c hc
    simp only [hc, returncode]
  · intro sig hsig hc
    simp only [hc, returncode]
    omega

/-- C4: the child is spawned with argument vector equal to the resolved
binary path followed by all of the launcher's received arguments with
only the launcher's own program name (argv 0) excluded, and with an
environment identical to the launcher's full inherited environment. -/
theorem c4_argv_env_forwarding {Env : Type} (systemRaw machineRaw : String)
    (fs : FsPath → Bool) (package_dir prefixDir : FsPath) (argv : List String) (env : Env)
    (chmodOk : FsPath → Bool) (child : Invocation Env → ChildResult) (binary_path : FsPath)
    (hok : get_binary_path fs package_dir prefixDir systemRaw machineRaw = .ok binary_path)
    (hch : systemRaw = "Windows" ∨ chmodOk binary_path = true) :
    ∃ inv : Invocation Env,
      (mainRun systemRaw machineRaw fs package_dir prefixDir argv env chmodOk
        child).spawned = some inv ∧
      inv.argv = pathStr binary_path :: List.drop 1 argv ∧
      inv.env = env := by
  rw [mainRun_spawn systemRaw machineRaw fs package_dir prefixDir argv env chmodOk child
    binary_path hok hch]
  exact ⟨⟨pathStr binary_path :: List.drop 1 argv, env⟩, rfl, rfl, rfl⟩

/-- C5 counterexample: a concrete non-Windows run in which the binary is
found but `os.chmod` fails.  Contrary to the claim that the launcher
"still proceeds to spawn the child process rather than aborting", no
child is spawned: the unhandled chmod exception aborts the run. -/
theorem c5_counterexample :
    (mainRun "Linux" "x86_64"
      (fun p => p == ["app", "bin", "figma-query-linux-amd64"])
      ["app"] ["usr"] ["figma-query", "--version"] ([] : List (String × String))
      (fun _ => false) (fun _ => .normalExit 0)).spawned = none ∧
    (mainRun "Linux" "x86_64"
      (fun p => p == ["app", "bin", "figma-query-linux-amd64"])
      ["app"] ["usr"] ["figma-query", "--version"] ([] : List (String × String))
      (fun _ => false) (fun _ => .normalExit 0)).uncaughtError = true := by
  decide

/-- C5 (amended): the pre-spawn permission fix-up is not failure
tolerant: on non-Windows hosts, when setting the permissions fails, the
unhandled exception aborts the launcher (exit status 1, nothing
spawned) instead of proceeding to spawn; on Windows (raw system string
"Windows") the fix-up step is skipped entirely and the spawn proceeds. -/
theorem c5_chmod_behavior {Env : Type} (systemRaw machineRaw : String)
    (fs : FsPath → Bool) (package_dir prefixDir : FsPath) (argv : List String) (env : Env)
    (chmodOk : FsPath → Bool) (child : Invocation Env → ChildResult) (binary_path : FsPath)
    (hok : get_binary_path fs package_dir prefixDir systemRaw machineRaw = .ok binary_path) :
    (systemRaw ≠ "Windows" → chmodOk binary_path = false →
      (mainRun systemRaw machineRaw fs package_dir prefixDir argv env chmodOk
        child).spawned = none ∧
      (mainRun systemRaw machineRaw fs package_dir prefixDir argv env chmodOk
        child).exitCode = 1 ∧
      (mainRun systemRaw machineRaw fs package_dir prefixDir argv env chmodOk
        child).uncaughtError = true ∧
      (mainRun systemRaw machineRaw fs package_dir prefixDir argv env chmodOk
        child).chmodCalled = some binary_path) ∧
    (systemRaw = "Windows" →
      (mainRun systemRaw machineRaw fs package_dir prefixDir argv env chmodOk
        child).chmodCalled = none ∧
      (mainRun systemRaw machineRaw fs package_dir prefixDir argv env chmodOk
        child).spawned =
          some ⟨pathStr binary_path :: List.drop 1 argv, env⟩) := by
  constructor
  · intro hw hch
    rw [mainRun_chmod_crash systemRaw machineRaw fs package_dir prefixDir argv env chmodOk
      child binary_path hok hw hch]
    exact ⟨rfl, rfl, rfl, rfl⟩
  · intro hw
    rw [mainRun_spawn systemRaw machineRaw fs package_dir prefixDir argv env chmodOk child
      binary_path hok (Or.inl hw)]
    refine ⟨?_, rfl⟩
    simp [hw]

theorem get_platform_binary_name_platform_error (systemRaw machineRaw msg : String)
    (h : get_platform_binary_name systemRaw machineRaw =
      .error (.unsupportedPlatform msg)) :
    msg = "Unsupported operating system: " ++ lowerStr systemRaw := by
  rcases osOf_get_os_name (lowerStr systemRaw) with ⟨-, h2⟩ | ⟨os, -, h2⟩
  · simp only [get_platform_binary_name, h2, Except.error.injEq,
      Err.unsupportedPlatform.injEq] at h
    exact h.symm
  · rcases archOf_get_arch (lowerStr machineRaw) with ⟨-, g2⟩ | ⟨a, -, g2⟩
    · simp only [get_platform_binary_name, h2, g2] at h
      cases h
    · simp only [get_platform_binary_name, h2, g2] at h
      split_ifs at h

/-- A failing lookup either passes the identification error through with
no filesystem probe made, or the name was computed and the error is a
BinaryNotFound. -/
theorem get_binary_path_error_split (fs : FsPath → Bool) (package_dir prefixDir : FsPath)
    (systemRaw machineRaw : String) (e : Err)
    (h : get_binary_path fs package_dir prefixDir systemRaw machineRaw = .error e) :
    (get_platform_binary_name systemRaw machineRaw = .error e ∧
      get_binary_path_probes fs package_dir prefixDir systemRaw machineRaw = []) ∨
    (∃ binary_name, get_platform_binary_name systemRaw machineRaw = .ok binary_name ∧
      ∃ m, e = .binaryNotFound m) := by
  cases hname : get_platform_binary_name systemRaw machineRaw with
  | error f =>
    refine Or.inl ⟨?_, ?_⟩
    · unfold get_binary_path at h
      rw [hname] at h
      cases h
      rfl
    · unfold get_binary_path_probes
      rw [hname]
  | ok binary_name =>
    right
    refine ⟨binary_name, rfl, ?_⟩
    rw [get_binary_path_find fs package_dir prefixDir systemRaw machineRaw
      binary_name hname] at h
    cases hf : (candidates package_dir prefixDir binary_name).find? fs with
    | some q => rw [hf] at h; simp at h
    | none =>
      rw [hf] at h
      cases h
      exact ⟨_, rfl⟩

/-- C7: whenever platform identification or binary location fails, the
launcher exits with status 1 after writing a single diagnostic line to
the error stream, spawns no child and performs no permission change; on
an unsupported OS the diagnostic contains "Unsupported operating
system" and no filesystem existence check is attempted. -/
theorem c7_failure_exit {Env : Type} (systemRaw machineRaw : String) (fs : FsPath → Bool)
    (package_dir prefixDir : FsPath) (argv : List String) (env : Env)
    (chmodOk : FsPath → Bool) (child : Invocation Env → ChildResult) (e : Err)
    (herr : get_binary_path fs package_dir prefixDir systemRaw machineRaw = .error e) :
    (mainRun systemRaw machineRaw fs package_dir prefixDir argv env chmodOk
      child).exitCode = 1 ∧
    (mainRun systemRaw machineRaw fs package_dir prefixDir argv env chmodOk
      child).stderrLines = ["Error: " ++ e.message] ∧
    (mainRun systemRaw machineRaw fs package_dir prefixDir argv env chmodOk
      child).spawned = none ∧
    (mainRun systemRaw machineRaw fs package_dir prefixDir argv env chmodOk
      child).chmodCalled = none ∧
    (mainRun systemRaw machineRaw fs package_dir prefixDir argv env chmodOk
      child).uncaughtError = false ∧
    (∀ msg, e = .unsupportedPlatform msg →
      get_binary_path_probes fs package_dir prefixDir systemRaw machineRaw = [] ∧
      ∃ rest, "Error: " ++ e.message =
        "Error: Unsupported operating system" ++ rest) := by
  have hmain : mainRun systemRaw machineRaw fs package_dir prefixDir argv env chmodOk
      child =
      { exitCode := 1, spawned := none, chmodCalled := none,
        stderrLines := ["Error: " ++ e.message], uncaughtError := false } := by
    simp only [mainRun, herr]
  refine ⟨by rw [hmain], by rw [hmain], by rw [hmain], by rw [hmain], by rw [hmain], ?_⟩
  rintro msg rfl
  rcases get_binary_path_error_split fs package_dir prefixDir systemRaw machineRaw _ herr
    with ⟨hname, hpr⟩ | ⟨n, -, m, hm⟩
  · refine ⟨hpr, ⟨": " ++ lowerStr systemRaw, ?_⟩⟩
    have hmsg := get_platform_binary_name_platform_error systemRaw machineRaw msg hname
    show "Error: " ++ Err.message (.unsupportedPlatform msg) = _
    rw [Err.message, hmsg, ← String.append_assoc, ← String.append_assoc]
    have hAB : ("Error: " ++ "Unsupported operating system: " : String) =
        "Error: Unsupported operating system" ++ ": " := by decide
    rw [hAB]
  · cases hm

/-- Witness for C1 at the concrete raw pair (Darwin, ARM64). -/
theorem c1_identification_witness :
    ∃ p, identify "Darwin" "ARM64" = .ok p :=
  (c1_identification "Darwin" "ARM64").1.mpr (by decide)

/-- Witness for C2: only the third candidate exists and is returned. -/
theorem c2_locate_order_witness :
    get_binary_path
      (fun p => p == ["usr", "share", "figma_query", "bin", "figma-query-linux-amd64"])
      ["app", "pkg"] ["usr"] "Linux" "x86_64" =
      .ok ["usr", "share", "figma_query", "bin", "figma-query-linux-amd64"] :=
  (c2_locate_order
    (fun p => p == ["usr", "share", "figma_query", "bin", "figma-query-linux-amd64"])
    ["app", "pkg"] ["usr"] "Linux" "x86_64" "figma-query-linux-amd64"
    (by decide)).2.2.1 (by decide) (by decide) (by decide)

/-- Witness for C3: a child exiting 42 makes the launcher exit 42. -/
theorem c3_exit_status_propagation_witness :
    (mainRun "Linux" "x86_64" (fun p => p == ["app", "bin", "figma-query-linux-amd64"])
      ["app"] ["usr"] ["figma-query", "--version"] ([] : List (String × String))
      (fun _ => true) (fun _ => .normalExit 42)).exitCode = 42 :=
  (c3_exit_status_propagation "Linux" "x86_64"
    (fun p => p == ["app", "bin", "figma-query-linux-amd64"]) ["app"] ["usr"]
    ["figma-query", "--version"] ([] : List (String × String)) (fun _ => true)
    (fun _ => .normalExit 42) ["app", "bin", "figma-query-linux-amd64"]
    (by decide) (Or.inr rfl)).1 42 rfl

/-- Witness for C4 at a concrete invocation. -/
theorem c4_argv_env_forwarding_witness :
    ∃ inv : Invocation (List (String × String)),
      (mainRun "Linux" "x86_64" (fun p => p == ["app", "bin", "figma-query-linux-amd64"])
        ["app"] ["usr"] ["figma-query", "--flag"] [("HOME", "/root")]
        (fun _ => true) (fun _ => .normalExit 0)).spawned = some inv ∧
      inv.argv = pathStr ["app", "bin", "figma-query-linux-amd64"] ::
        List.drop 1 ["figma-query", "--flag"] ∧
      inv.env = [("HOME", "/root")] :=
  c4_argv_env_forwarding "Linux" "x86_64"
    (fun p => p == ["app", "bin", "figma-query-linux-amd64"]) ["app"] ["usr"]
    ["figma-query", "--flag"] [("HOME", "/root")] (fun _ => true)
    (fun _ => .normalExit 0) ["app", "bin", "figma-query-linux-amd64"]
    (by decide) (Or.inr rfl)

/-- Witness for the amended C5 at a concrete failing chmod. -/
theorem c5_chmod_behavior_witness :
    (mainRun "Linux" "x86_64" (fun p => p == ["app", "bin", "figma-query-linux-amd64"])
      ["app"] ["usr"] ["figma-query"] ([] : List (String × String))
      (fun _ => false) (fun _ => .normalExit 0)).spawned = none ∧
    (mainRun "Linux" "x86_64" (fun p => p == ["app", "bin", "figma-query-linux-amd64"])
      ["app"] ["usr"] ["figma-query"] ([] : List (String × String))
      (fun _ => false) (fun _ => .normalExit 0)).exitCode = 1 ∧
    (mainRun "Linux" "x86_64" (fun p => p == ["app", "bin", "figma-query-linux-amd64"])
      ["app"] ["usr"] ["figma-query"] ([] : List (String × String))
      (fun _ => false) (fun _ => .normalExit 0)).uncaughtError = true ∧
    (mainRun "Linux" "x86_64" (fun p => p == ["app", "bin", "figma-query-linux-amd64"])
      ["app"] ["usr"] ["figma-query"] ([] : List (String × String))
      (fun _ => false) (fun _ => .normalExit 0)).chmodCalled =
        some ["app", "bin", "figma-query-linux-amd64"] :=
  (c5_chmod_behavior "Linux" "x86_64"
    (fun p => p == ["app", "bin", "figma-query-linux-amd64"]) ["app"] ["usr"]
    ["figma-query"] ([] : List (String × String)) (fun _ => false)
    (fun _ => .normalExit 0) ["app", "bin", "figma-query-linux-amd64"]
    (by decide)).1 (by decide) rfl

/-- Witness for C6 on an empty filesystem. -/
theorem c6_not_found_diagnostics_witness :
    ∃ msg, get_binary_path (fun _ => false) ["app"] ["usr"] "Linux" "x86_64" =
        .error (.binaryNotFound msg) ∧
      (∃ a b, msg = a ++ "figma-query-linux-amd64" ++ b) ∧
      (∃ a b, msg = a ++ "Linux" ++ b) ∧
      (∃ a b, msg = a ++ "x86_64" ++ b) :=
  c6_not_found_diagnostics (fun _ => false) ["app"] ["usr"] "Linux" "x86_64"
    "figma-query-linux-amd64" (by decide) rfl rfl rfl

/-- Witness for C7 on a simulated plan9 host. -/
theorem c7_failure_exit_witness :
    (mainRun "plan9" "vax" (fun _ => false) ["app"] ["usr"] ["figma-query"]
      ([] : List (String × String)) (fun _ => true)
      (fun _ => .normalExit 0)).exitCode = 1 ∧
    get_binary_path_probes (fun _ => false) ["app"] ["usr"] "plan9" "vax" = [] :=
  ⟨(c7_failure_exit "plan9" "vax" (fun _ => false) ["app"] ["usr"] ["figma-query"]
      ([] : List (String × String)) (fun _ => true) (fun _ => .normalExit 0)
      (Err.unsupportedPlatform "Unsupported operating system: plan9") (by decide)).1,
   ((c7_failure_exit "plan9" "vax" (fun _ => false) ["app"] ["usr"] ["figma-query"]
      ([] : List (String × String)) (fun _ => true) (fun _ => .normalExit 0)
      (Err.unsupportedPlatform "Unsupported operating system: plan9")
      (by decide)).2.2.2.2.2 "Unsupported operating system: plan9" rfl).1⟩

/-- Witness for C8 at the windows/amd64 platform. -/
theorem c8_binary_name_pure_witness :
    get_platform_binary_name "Windows" "x86_64" =
      get_platform_binary_name "WINDOWS" "amd64" ∧
    strEndsWith (binaryNameOf ⟨OS.windows, Arch.amd64⟩) ".exe" = true :=
  ⟨(c8_binary_name_pure ⟨OS.windows, Arch.amd64⟩).2.2.2 "Windows" "x86_64"
      "WINDOWS" "amd64" (by decide) (by decide),
   (c8_binary_name_pure ⟨OS.windows, Arch.amd64⟩).2.1.mpr rfl⟩

/-- Witness for C9 at concrete unsupported raw strings. -/
theorem c9_os_check_precedence_witness :
    identify "plan9" "vax" =
      .error (.unsupportedPlatform
        ("Unsupported operating system: " ++ lowerStr "plan9")) :=
  (c9_os_check_precedence "plan9" "vax" (by decide) (by decide)).1
